import Mathlib

/- Verification of the coverage-metrics pipeline in src/app.py of the
   sf-opportunity-contact-role-insights tool. Pure numeric code is modelled
   over exact rationals and reals; pandas column operations are modelled
   per element, with string contents represented as lists of characters so
   that every operation is executable by kernel reduction. -/

namespace App

/- ===== Character-list string primitives =====
   Executable counterparts of the Python string operations used by the
   pipeline: str.strip, the end-anchored regex removal of ".0", substring
   containment, and ASCII lowercasing. -/

def isPyWhitespace (c : Char) : Bool :=
  c = ' ' || c = '\t' || c = '\n' || c = '\r' || c = '\x0b' || c = '\x0c'

def trimChars (s : List Char) : List Char :=
  ((s.dropWhile isPyWhitespace).reverse.dropWhile isPyWhitespace).reverse

def leadsWith : List Char → List Char → Bool
  | [], _ => true
  | _ :: _, [] => false
  | a :: pa, b :: sb => a == b && leadsWith pa sb

def strEndsWith (s suffix : List Char) : Bool :=
  leadsWith suffix.reverse s.reverse

def strDropRight (s : List Char) (n : Nat) : List Char :=
  s.take (s.length - n)

def hasSeg (pat : List Char) : List Char → Bool
  | [] => pat.isEmpty
  | b :: bs => leadsWith pat (b :: bs) || hasSeg pat bs

def lowerChars (s : List Char) : List Char := s.map Char.toLower

/- ===== Identity Cleaner =====
   src/app.py, clean_id_series (lines 102-112), per-element semantics:
     s = s.astype(str).str.strip()
     s = s.str.replace(r"\.0$", "", regex=True)
     s = s.replace({"nan": "", "None": ""})
   The end-anchored regex removes at most one trailing ".0"; the replace
   maps the exact cell values "nan" and "None" to the empty string; the
   code applies the three steps in this order. -/

def stripDotZeroChars (t : List Char) : List Char :=
  if strEndsWith t ['.', '0'] then strDropRight t 2 else t

def missingRuleChars (u : List Char) : List Char :=
  if u = ("nan").data ∨ u = ("None").data then [] else u

def cleanChars (s : List Char) : List Char :=
  missingRuleChars (stripDotZeroChars (trimChars s))

def clean_id (s : String) : String := ⟨cleanChars s.data⟩

/- Spec-side single rules (stringify is the identity on the string model),
   used for the step-by-step refinement statement of claim C7. -/

def trimRule (s : String) : String := ⟨trimChars s.data⟩

def stripDotZeroRule (s : String) : String := ⟨stripDotZeroChars s.data⟩

def missingRule (s : String) : String := ⟨missingRuleChars s.data⟩

/- ===== Schema Normalizer: required-columns check =====
   src/app.py lines 485-499: the lists of mandatory canonical columns, the
   missing-column computation missing = [c for c in required if c not in
   df.columns], and the halt-with-error behaviour
   (st.error(prefix + ", ".join(missing)); st.stop()), opportunities first. -/

def requiredOpps : List String :=
  ["Opportunity ID", "Opportunity Name", "Account ID", "Amount",
   "Type", "Stage", "Created Date", "Close Date", "Opportunity Owner"]

def requiredRoles : List String := ["Opportunity ID", "Contact ID"]

def missingCols (required cols : List String) : List String :=
  required.filter (fun c => decide (c ∉ cols))

def oppsErrorMsg (missing : List String) : String :=
  "Opportunities file missing columns: " ++ String.intercalate (", ") missing

def rolesErrorMsg (missing : List String) : String :=
  "Contact Roles file missing columns: " ++ String.intercalate (", ") missing

def schemaCheck (oppCols roleCols : List String) : Except String Unit :=
  if missingCols requiredOpps oppCols ≠ [] then
    Except.error (oppsErrorMsg (missingCols requiredOpps oppCols))
  else if missingCols requiredRoles roleCols ≠ [] then
    Except.error (rolesErrorMsg (missingCols requiredRoles roleCols))
  else Except.ok ()

/- ===== Categorizer: outcome masks =====
   src/app.py lines 546-588. The five user-supplied stage lists; the flag
   user_mapped_any = any([early, mid, late, won, lost]); and the per-row
   masks
     won_mask  = stage.isin(won_stages)                    (mapped)
     lost_mask = stage.isin(lost_stages)                   (mapped)
     won_mask  = stage.str.contains("Won",  case=False)    (fallback)
     lost_mask = stage.str.contains("Lost", case=False)    (fallback)
     open_mask = ~(won_mask | lost_mask)
   Case-insensitive substring containment is modelled by containment of the
   lowered pattern in the lowered character list. -/

structure StageMapping where
  won : List String
  lost : List String
  early : List String
  mid : List String
  late : List String

def userMappedAny (m : StageMapping) : Bool :=
  !(m.early.isEmpty && m.mid.isEmpty && m.late.isEmpty
      && m.won.isEmpty && m.lost.isEmpty)

def wonMask (m : StageMapping) (s : String) : Bool :=
  if userMappedAny m then decide (s ∈ m.won)
  else hasSeg ("won").data (lowerChars s.data)

def lostMask (m : StageMapping) (s : String) : Bool :=
  if userMappedAny m then decide (s ∈ m.lost)
  else hasSeg ("lost").data (lowerChars s.data)

def openMask (m : StageMapping) (s : String) : Bool :=
  !(wonMask m s || lostMask m s)

/- ===== Metrics Engine: win rate =====
   src/app.py lines 614-616:
     win_rate = won_count / (won_count + lost_count)
                if (won_count + lost_count) > 0 else 0 -/

def win_rate (won lost : ℕ) : ℚ :=
  if 0 < won + lost then (won : ℚ) / ((won : ℚ) + (lost : ℚ)) else 0

/- ===== Metrics Engine: Buying Group Coverage Score =====
   src/app.py lines 618-620 and 812-821. Open opportunities are represented
   by the list of their contact counts (opportunity IDs are unique within a
   load), Won opportunities likewise.
     avg_cr_x       = column.mean() if not empty else 0
     pct_2plus_open = count(cc >= 2) / total_open if total_open > 0 else 0
     pct_zero_open  = count(cc == 0) / total_open if total_open > 0 else 0
     gap            = max(0, avg_won - avg_open) if avg_won truthy else 0
     score = pct_2plus*60 + (1 - pct_zero)*30
             + max(0, 1 - gap / max(avg_won, 1))*10
     score = round(min(max(score, 0), 100), 0)
   Python round with ndigits rounds half to even. -/

def meanNat (l : List ℕ) : ℚ :=
  if l.isEmpty then 0 else (l.sum : ℚ) / (l.length : ℚ)

def pct2plusOpen (openCounts : List ℕ) : ℚ :=
  if 0 < openCounts.length then
    ((openCounts.filter (fun n => decide (2 ≤ n))).length : ℚ)
      / (openCounts.length : ℚ)
  else 0

def pctZeroOpen (openCounts : List ℕ) : ℚ :=
  if 0 < openCounts.length then
    ((openCounts.filter (fun n => decide (n = 0))).length : ℚ)
      / (openCounts.length : ℚ)
  else 0

def gapOpenVsWon (wonCounts openCounts : List ℕ) : ℚ :=
  if meanNat wonCounts ≠ 0 then max 0 (meanNat wonCounts - meanNat openCounts)
  else 0

def coverageScore (openCounts wonCounts : List ℕ) : ℚ :=
  min (max (pct2plusOpen openCounts * 60 + (1 - pctZeroOpen openCounts) * 30
        + max 0 (1 - gapOpenVsWon wonCounts openCounts
                      / max (meanNat wonCounts) 1) * 10) 0) 100

def roundHalfEven (q : ℚ) : ℤ :=
  if q - (⌊q⌋ : ℚ) < 1/2 then ⌊q⌋
  else if 1/2 < q - (⌊q⌋ : ℚ) then ⌊q⌋ + 1
  else if Even ⌊q⌋ then ⌊q⌋ else ⌊q⌋ + 1

def reportedScore (openCounts wonCounts : List ℕ) : ℤ :=
  roundHalfEven (coverageScore openCounts wonCounts)

/- Score formula exactly as worded in claim C4: third term divided by
   avg_won itself, not by max(avg_won, 1); division by zero follows the
   rational convention x / 0 = 0. -/

def coverageScoreClaimFormula (openCounts wonCounts : List ℕ) : ℚ :=
  60 * pct2plusOpen openCounts + 30 * (1 - pctZeroOpen openCounts)
    + 10 * max 0 (1 - max 0 (meanNat wonCounts - meanNat openCounts)
                        / meanNat wonCounts)

/- ===== Metrics Engine: modeled (enhanced) win rate =====
   src/app.py lines 892-895:
     cur = max(avg_open_contacts, 1e-6)
     improvement_factor = min(1.8, target_contacts / cur)
     return min(max(base_win_rate * improvement_factor, base_win_rate), 0.95) -/

def modeled_win_rate_for_open
    (avg_open_contacts base_win_rate target_contacts : ℚ) : ℚ :=
  min (max (base_win_rate
              * min 1.8 (target_contacts / max avg_open_contacts 0.000001))
           base_win_rate)
      0.95

/- ===== Metrics Engine: Wilson score interval =====
   src/app.py lines 149-157, in exact real arithmetic with x**0.5 read as
   the real square root:
     if n == 0: return (0.0, 0.0)
     p = k / n
     denom = 1 + z**2 / n
     center = (p + z**2/(2*n)) / denom
     margin = (z * ((p*(1-p)/n + z**2/(4*n**2))**0.5)) / denom
     return (max(0.0, center - margin), min(1.0, center + margin)) -/

noncomputable def wilsonCenter (k n z : ℝ) : ℝ :=
  (k / n + z ^ 2 / (2 * n)) / (1 + z ^ 2 / n)

noncomputable def wilsonMargin (k n z : ℝ) : ℝ :=
  z * Real.sqrt (k / n * (1 - k / n) / n + z ^ 2 / (4 * n ^ 2))
    / (1 + z ^ 2 / n)

noncomputable def wilson_ci (k n z : ℝ) : ℝ × ℝ :=
  if n = 0 then (0, 0)
  else (max 0 (wilsonCenter k n z - wilsonMargin k n z),
        min 1 (wilsonCenter k n z + wilsonMargin k n z))

/- Interval exactly as worded in claim C6 and spec section 4.4, z = 1.96. -/

noncomputable def wilson_ci_spec (k n : ℝ) : ℝ × ℝ :=
  if n = 0 then (0, 0)
  else
    let z : ℝ := 1.96
    let p := k / n
    let center := (p + z ^ 2 / (2 * n)) / (1 + z ^ 2 / n)
    let margin := z * Real.sqrt (p * (1 - p) / n + z ^ 2 / (4 * n ^ 2))
        / (1 + z ^ 2 / n)
    (max 0 (center - margin), min 1 (center + margin))

/- ===== Helper lemmas ===== -/

theorem leadsWith_iff (p : List Char) : ∀ s, leadsWith p s = true ↔ p <+: s := by
  induction p with
  | nil => intro s; simp [leadsWith]
  | cons a pa ih =>
    intro s
    cases s with
    | nil => simp [leadsWith]
    | cons b bs => simp [leadsWith, List.cons_prefix_cons, ih]

theorem hasSeg_iff (p : List Char) : ∀ s, hasSeg p s = true ↔ p <:+: s := by
  intro s
  induction s with
  | nil => simp [hasSeg, List.isEmpty_iff]
  | cons b bs ih => simp [hasSeg, List.infix_cons_iff, leadsWith_iff, ih]

theorem meanNat_nonneg (l : List ℕ) : 0 ≤ meanNat l := by
  unfold meanNat
  split_ifs
  · exact le_refl 0
  · positivity

theorem gapOpenVsWon_eq (wonCounts openCounts : List ℕ) :
    gapOpenVsWon wonCounts openCounts
      = max 0 (meanNat wonCounts - meanNat openCounts) := by
  unfold gapOpenVsWon
  split_ifs with h
  · rfl
  · push_neg at h
    rw [h]
    exact (max_eq_left (sub_nonpos.mpr (meanNat_nonneg openCounts))).symm

theorem roundHalfEven_nonneg (q : ℚ) (h : 0 ≤ q) : 0 ≤ roundHalfEven q := by
  have hf : (0 : ℤ) ≤ ⌊q⌋ := Int.le_floor.mpr (by exact_mod_cast h)
  unfold roundHalfEven
  split_ifs <;> omega

theorem roundHalfEven_le (q : ℚ) (n : ℤ) (h : q ≤ (n : ℚ)) :
    roundHalfEven q ≤ n := by
  have hfl : ⌊q⌋ ≤ n := by
    have := Int.floor_le_floor h
    simpa using this
  unfold roundHalfEven
  split_ifs with h1 h2 h3
  · exact hfl
  · have h1l : (1 : ℚ)/2 ≤ q - (⌊q⌋ : ℚ) := not_lt.mp h1
    have hlt : (⌊q⌋ : ℚ) < (n : ℚ) := lt_of_lt_of_le (by linarith) h
    have : ⌊q⌋ < n := by exact_mod_cast hlt
    omega
  · exact hfl
  · have h1l : (1 : ℚ)/2 ≤ q - (⌊q⌋ : ℚ) := not_lt.mp h1
    have hlt : (⌊q⌋ : ℚ) < (n : ℚ) := lt_of_lt_of_le (by linarith) h
    have : ⌊q⌋ < n := by exact_mod_cast hlt
    omega

theorem mem_missingCols {required cols : List String} {c : String} :
    c ∈ missingCols required cols ↔ c ∈ required ∧ c ∉ cols := by
  simp [missingCols]

theorem missingCols_ne_nil {required cols : List String}
    (h : ∃ c ∈ required, c ∉ cols) : missingCols required cols ≠ [] := by
  obtain ⟨c, hc, hn⟩ := h
  intro hnil
  have hm := mem_missingCols.mpr ⟨hc, hn⟩
  rw [hnil] at hm
  exact absurd hm (List.not_mem_nil c)

theorem missingCols_nil {required cols : List String}
    (h : ∀ c ∈ required, c ∈ cols) : missingCols required cols = [] := by
  simp only [missingCols, List.filter_eq_nil_iff]
  intro c hc
  simp [h c hc]

theorem wilson_sum_allwins (x : ℝ) (hx : 0 < x) :
    wilsonCenter x x 1.96 + wilsonMargin x x 1.96 = 1 := by
  have hne : x ≠ 0 := ne_of_gt hx
  unfold wilsonCenter wilsonMargin
  rw [div_self hne]
  have h1 : (1 : ℝ) * (1 - 1) / x + (1.96 : ℝ) ^ 2 / (4 * x ^ 2)
      = ((1.96 : ℝ) / (2 * x)) ^ 2 := by
    field_simp
    ring
  rw [h1, Real.sqrt_sq (by positivity)]
  have hd : (0 : ℝ) < 1 + (1.96 : ℝ) ^ 2 / x := by positivity
  have hd0 : (1 : ℝ) + (1.96 : ℝ) ^ 2 / x ≠ 0 := ne_of_gt hd
  field_simp
  ring

theorem wilson_upper_allwins (x : ℝ) (hx : 0 < x) :
    (wilson_ci x x 1.96).2 = 1 := by
  have hne : x ≠ 0 := ne_of_gt hx
  unfold wilson_ci
  rw [if_neg hne]
  simp [wilson_sum_allwins x hx]

/- ===== Claim C1 ===== -/

/-- Claim C1, counterexample: in fallback mode (no stage mapping supplied,
so user_mapped_any is false) the stage string "Won Lost" contains both the
substring "won" and the substring "lost" case-insensitively, so the code
sets both won_mask and lost_mask for this opportunity: its outcome bucket
is not exactly one of Won, Lost, Open — the claimed never-more-than-one
exclusivity fails. -/
theorem claimC1_counterexample :
    wonMask ⟨[], [], [], [], []⟩ ("Won Lost") = true
    ∧ lostMask ⟨[], [], [], [], []⟩ ("Won Lost") = true
    ∧ openMask ⟨[], [], [], [], []⟩ ("Won Lost") = false := by
  refine ⟨?_, ?_, ?_⟩ <;> decide

/-- Claim C1, amended: Won and Lost membership follow the claimed rules
exactly (stage-set membership under an explicit mapping, case-insensitive
"won"/"lost" substring containment in fallback), and Open is exactly the
complement of the union of Won and Lost; an opportunity is therefore never
both Open and Won or Lost, and whenever it is not simultaneously Won and
Lost (supplied Won and Lost sets overlapping on its stage, or a stage
containing both substrings in fallback), its bucket is exactly one of
Won, Lost, Open. -/
theorem claimC1_theorem (m : StageMapping) (s : String) :
    openMask m s = !(wonMask m s || lostMask m s)
    ∧ (userMappedAny m = true →
        ((wonMask m s = true ↔ s ∈ m.won) ∧ (lostMask m s = true ↔ s ∈ m.lost)))
    ∧ (userMappedAny m = false →
        ((wonMask m s = true ↔ ("won").data <:+: lowerChars s.data)
          ∧ (lostMask m s = true ↔ ("lost").data <:+: lowerChars s.data)))
    ∧ (¬(wonMask m s = true ∧ lostMask m s = true) →
        (wonMask m s = true ∧ lostMask m s = false ∧ openMask m s = false)
        ∨ (wonMask m s = false ∧ lostMask m s = true ∧ openMask m s = false)
        ∨ (wonMask m s = false ∧ lostMask m s = false ∧ openMask m s = true)) := by
  refine ⟨rfl, ?_, ?_, ?_⟩
  · intro h
    constructor
    · simp [wonMask, h]
    · simp [lostMask, h]
  · intro h
    constructor
    · simp [wonMask, h, hasSeg_iff]
    · simp [lostMask, h, hasSeg_iff]
  · intro h
    cases hw : wonMask m s with
    | false =>
      cases hl : lostMask m s with
      | false => exact Or.inr (Or.inr ⟨rfl, rfl, by simp [openMask, hw, hl]⟩)
      | true => exact Or.inr (Or.inl ⟨rfl, rfl, by simp [openMask, hw, hl]⟩)
    | true =>
      cases hl : lostMask m s with
      | false => exact Or.inl ⟨rfl, rfl, by simp [openMask, hw, hl]⟩
      | true => exact absurd ⟨hw, hl⟩ h

/-- Claim C1, witness: with the explicit mapping Won = Closed Won,
Lost = Closed Lost, the stage "Closed Won" is classified as exactly Won. -/
theorem claimC1_witness :
    (wonMask ⟨[("Closed Won")], [("Closed Lost")], [], [], []⟩ ("Closed Won") = true
      ∧ lostMask ⟨[("Closed Won")], [("Closed Lost")], [], [], []⟩ ("Closed Won") = false
      ∧ openMask ⟨[("Closed Won")], [("Closed Lost")], [], [], []⟩ ("Closed Won") = false)
    ∨ (wonMask ⟨[("Closed Won")], [("Closed Lost")], [], [], []⟩ ("Closed Won") = false
      ∧ lostMask ⟨[("Closed Won")], [("Closed Lost")], [], [], []⟩ ("Closed Won") = true
      ∧ openMask ⟨[("Closed Won")], [("Closed Lost")], [], [], []⟩ ("Closed Won") = false)
    ∨ (wonMask ⟨[("Closed Won")], [("Closed Lost")], [], [], []⟩ ("Closed Won") = false
      ∧ lostMask ⟨[("Closed Won")], [("Closed Lost")], [], [], []⟩ ("Closed Won") = false
      ∧ openMask ⟨[("Closed Won")], [("Closed Lost")], [], [], []⟩ ("Closed Won") = true) := by
  have h := claimC1_theorem ⟨[("Closed Won")], [("Closed Lost")], [], [], []⟩ ("Closed Won")
  exact h.2.2.2 (by decide)

/- ===== Claim C2 ===== -/

/-- Claim C2, counterexample: with base win rate 1 (which lies in the
claimed input range [0,1]), avg_open_contacts 1 and target_contacts 1, the
modeled win rate is 0.95, which is strictly below the base win rate — the
claimed lower bound (result always at least the base win rate) fails,
because the clamp applies min with 0.95 last. -/
theorem claimC2_counterexample :
    modeled_win_rate_for_open 1 1 1 = 0.95
    ∧ modeled_win_rate_for_open 1 1 1 < 1 := by
  constructor <;> norm_num [modeled_win_rate_for_open, min_def, max_def]

/-- Claim C2, amended: for base win rate in [0,1] and non-negative target
and average, the modeled win rate equals base × min(1.8, target /
max(avg, 1e-6)) clamped below by the base win rate and above by 0.95 in
that order; it always lies between min(base, 0.95) and 0.95, and is at
least the base win rate whenever the base win rate is at most 0.95. -/
theorem claimC2_theorem (avg base target : ℚ) (h0 : 0 ≤ base) (h1 : base ≤ 1)
    (h2 : 0 ≤ target) (h3 : 0 ≤ avg) :
    modeled_win_rate_for_open avg base target
        = min (max (base * min 1.8 (target / max avg 0.000001)) base) 0.95
    ∧ min base 0.95 ≤ modeled_win_rate_for_open avg base target
    ∧ modeled_win_rate_for_open avg base target ≤ 0.95
    ∧ (base ≤ 0.95 → base ≤ modeled_win_rate_for_open avg base target) := by
  refine ⟨rfl, ?_, ?_, ?_⟩
  · exact min_le_min (le_max_right _ _) le_rfl
  · exact min_le_right _ _
  · intro hb
    exact le_min (le_max_right _ _) hb

/-- Claim C2, witness: the amended bounds at avg 2, base 1/2, target 3. -/
theorem claimC2_witness :
    min (1/2 : ℚ) 0.95 ≤ modeled_win_rate_for_open 2 (1/2) 3
    ∧ modeled_win_rate_for_open 2 (1/2) 3 ≤ 0.95 := by
  have h := claimC2_theorem 2 (1/2) 3 (by norm_num) (by norm_num) (by norm_num)
    (by norm_num)
  exact ⟨h.2.1, h.2.2.1⟩

/- ===== Claim C3 ===== -/

/-- Claim C3, counterexample: at k = n = 1 (all wins, n within the claimed
range 1..100, z = 1.96) the upper bound of the Wilson interval is exactly
1, not strictly less than 1: in exact arithmetic center + margin equals 1
when p = 1, so the claimed strict inequality fails. -/
theorem claimC3_counterexample :
    (wilson_ci 1 1 1.96).2 = 1 ∧ ¬ (wilson_ci 1 1 1.96).2 < 1 := by
  have h := wilson_upper_allwins 1 one_pos
  exact ⟨h, by rw [h]; exact lt_irrefl 1⟩

/-- Claim C3, amended: for k = n (all wins) with n ≥ 1 and z = 1.96, the
upper bound of the Wilson interval equals exactly 1 in exact arithmetic
(the un-clamped endpoint center + margin is exactly 1), for every n, not
strictly less than 1 for small n. -/
theorem claimC3_theorem (n : ℕ) (h1 : 1 ≤ n) :
    (wilson_ci n n 1.96).2 = 1 :=
  wilson_upper_allwins n (by exact_mod_cast h1)

/-- Claim C3, witness: the amended statement evaluated at n = 3. -/
theorem claimC3_witness : (wilson_ci 3 3 1.96).2 = 1 := by
  have h := claimC3_theorem 3 (by norm_num)
  exact_mod_cast h

/- ===== Claim C4 ===== -/

/-- Claim C4, counterexample: one open opportunity with 0 contacts and two
won opportunities with 1 and 0 contacts (avg_won = 1/2, avg_open = 0,
gap = 1/2). The code divides the gap by max(avg_won, 1) = 1 and reports
score 5, while the formula stated in the claim divides by avg_won = 1/2
and yields 0: the claimed formula does not match the code. -/
theorem claimC4_counterexample :
    coverageScore [0] [1, 0] = 5
    ∧ coverageScoreClaimFormula [0] [1, 0] = 0
    ∧ (5 : ℚ) ≠ 0 := by
  refine ⟨?_, ?_, by norm_num⟩ <;>
    norm_num [coverageScore, coverageScoreClaimFormula, pct2plusOpen,
      pctZeroOpen, gapOpenVsWon, meanNat, min_def, max_def]

/-- Claim C4, amended: the Buying Group Coverage Score equals
60×(fraction of open opps with at least 2 contacts) + 30×(1 − fraction of
open opps with 0 contacts) + 10×max(0, 1 − gap / max(avg_won, 1)) with
gap = max(0, avg_won − avg_open) — the third term divides by
max(avg_won, 1), not by avg_won — clamped to [0, 100]; both the clamped
score and the rounded reported score always lie in [0, 100]. -/
theorem claimC4_theorem (openCounts wonCounts : List ℕ) :
    coverageScore openCounts wonCounts
        = min (max (pct2plusOpen openCounts * 60
              + (1 - pctZeroOpen openCounts) * 30
              + max 0 (1 - max 0 (meanNat wonCounts - meanNat openCounts)
                            / max (meanNat wonCounts) 1) * 10) 0) 100
    ∧ 0 ≤ coverageScore openCounts wonCounts
    ∧ coverageScore openCounts wonCounts ≤ 100
    ∧ 0 ≤ reportedScore openCounts wonCounts
    ∧ reportedScore openCounts wonCounts ≤ 100 := by
  refine ⟨?_, ?_, ?_, ?_, ?_⟩
  · simp only [coverageScore, gapOpenVsWon_eq]
  · exact le_min (le_max_right _ _) (by norm_num)
  · exact min_le_right _ _
  · exact roundHalfEven_nonneg _ (le_min (le_max_right _ _) (by norm_num))
  · refine roundHalfEven_le _ 100 ?_
    have h := min_le_right (max (pct2plusOpen openCounts * 60
        + (1 - pctZeroOpen openCounts) * 30
        + max 0 (1 - gapOpenVsWon wonCounts openCounts
                      / max (meanNat wonCounts) 1) * 10) 0) (100 : ℚ)
    calc coverageScore openCounts wonCounts ≤ (100 : ℚ) := h
    _ = ((100 : ℤ) : ℚ) := by norm_num

/- ===== Claim C5 ===== -/

/-- Claim C5: the win rate equals won / (won + lost) whenever at least one
closed opportunity exists, always lies in [0, 1], and equals 0 (a defined
value, not an error) when there are no Won and no Lost opportunities. -/
theorem claimC5_theorem (w l : ℕ) :
    (0 < w + l → win_rate w l = (w : ℚ) / ((w : ℚ) + (l : ℚ)))
    ∧ 0 ≤ win_rate w l
    ∧ win_rate w l ≤ 1
    ∧ (w = 0 → l = 0 → win_rate w l = 0) := by
  refine ⟨fun h => if_pos h, ?_, ?_, fun hw hl => by simp [win_rate, hw, hl]⟩
  · unfold win_rate
    split_ifs with h
    · positivity
    · exact le_refl 0
  · unfold win_rate
    split_ifs with h
    · apply div_le_one_of_le₀
      · have hl : (0 : ℚ) ≤ (l : ℚ) := by positivity
        linarith
      · positivity
    · norm_num

/-- Claim C5, witness: 3 won and 1 lost give win rate 3/4; no closed
opportunities give win rate 0. -/
theorem claimC5_witness :
    win_rate 3 1 = ((3 : ℕ) : ℚ) / (((3 : ℕ) : ℚ) + ((1 : ℕ) : ℚ))
    ∧ win_rate 0 0 = 0 :=
  ⟨(claimC5_theorem 3 1).1 (by norm_num), (claimC5_theorem 0 0).2.2.2 rfl rfl⟩

/- ===== Claim C6 ===== -/

/-- Claim C6: for 0 ≤ k ≤ n the implemented Wilson interval coincides with
the specified formula: (0, 0) when n = 0, and otherwise the interval
[center − margin, center + margin] clamped to [0, 1] with
center = (p + z²/2n)/(1 + z²/n) and
margin = z·sqrt(p(1−p)/n + z²/4n²)/(1 + z²/n), z = 1.96. -/
theorem claimC6_theorem (k n : ℝ) (h0 : 0 ≤ k) (h1 : k ≤ n) :
    wilson_ci k n 1.96 = wilson_ci_spec k n := rfl

/-- Claim C6, witness: the coincidence evaluated at k = 1, n = 2. -/
theorem claimC6_witness : wilson_ci 1 2 1.96 = wilson_ci_spec 1 2 :=
  claimC6_theorem 1 2 (by norm_num) (by norm_num)

/- ===== Claim C7 ===== -/

/-- Claim C7: identity cleaning applies, in order, stringify (identity on
the string model), trim, strip one trailing ".0", then map "nan"/"None"
to the empty string; and the three quoted examples evaluate as claimed. -/
theorem claimC7_theorem :
    (∀ s : String, clean_id s = missingRule (stripDotZeroRule (trimRule s)))
    ∧ clean_id ("12345.0") = ("12345")
    ∧ clean_id ("  ABC  ") = ("ABC")
    ∧ clean_id ("nan") = ("") :=
  ⟨fun _ => rfl, by decide, by decide, by decide⟩

/- ===== Claim C8 ===== -/

/-- Claim C8, counterexample: cleaning "7.0.0" yields "7.0" (the anchored
regex removes only one trailing ".0"), but cleaning the result again
yields "7" — cleaning is not idempotent on all strings. -/
theorem claimC8_counterexample :
    clean_id ("7.0.0") = ("7.0")
    ∧ clean_id (clean_id ("7.0.0")) = ("7")
    ∧ clean_id (clean_id ("7.0.0")) ≠ clean_id ("7.0.0") :=
  ⟨by decide, by decide, by decide⟩

/-- Claim C8, amended: cleaning an already-clean ID string returns it
unchanged — where already-clean means trimmed, not ending in ".0" and not
equal to "nan" or "None". Full idempotence fails because cleaning can
itself produce a string ending in ".0" (see the counterexample). -/
theorem claimC8_theorem (s : String) (h1 : trimChars s.data = s.data)
    (h2 : strEndsWith s.data ['.', '0'] = false)
    (h3 : s.data ≠ ("nan").data) (h4 : s.data ≠ ("None").data) :
    clean_id s = s := by
  apply String.ext
  show cleanChars s.data = s.data
  unfold cleanChars stripDotZeroChars missingRuleChars
  rw [h1, h2]
  simp [h3, h4]

/-- Claim C8, witness: the already-clean string "ABC" is returned
unchanged. -/
theorem claimC8_witness : clean_id ("ABC") = ("ABC") :=
  claimC8_theorem ("ABC") (by decide) (by decide) (by decide) (by decide)

/- ===== Claim C9 ===== -/

/-- Claim C9: if any mandatory canonical column is missing after
normalization, the pipeline halts with an error whose message is built
from the complete list of missing columns of the offending file
(opportunities checked first), every missing mandatory column appears in
that list, and the pipeline succeeds (so metrics are computed) exactly
when no mandatory column of either file is missing. -/
theorem claimC9_theorem (oppCols roleCols : List String) :
    ((∃ c ∈ requiredOpps, c ∉ oppCols) →
        schemaCheck oppCols roleCols
            = Except.error (oppsErrorMsg (missingCols requiredOpps oppCols))
        ∧ ∀ c ∈ requiredOpps, c ∉ oppCols → c ∈ missingCols requiredOpps oppCols)
    ∧ ((∀ c ∈ requiredOpps, c ∈ oppCols) → (∃ c ∈ requiredRoles, c ∉ roleCols) →
        schemaCheck oppCols roleCols
            = Except.error (rolesErrorMsg (missingCols requiredRoles roleCols))
        ∧ ∀ c ∈ requiredRoles, c ∉ roleCols → c ∈ missingCols requiredRoles roleCols)
    ∧ (schemaCheck oppCols roleCols = Except.ok ()
        ↔ missingCols requiredOpps oppCols = []
          ∧ missingCols requiredRoles roleCols = []) := by
  refine ⟨?_, ?_, ?_⟩
  · intro hex
    have hne := missingCols_ne_nil hex
    constructor
    · unfold schemaCheck
      rw [if_pos hne]
    · intro c hc hn
      exact mem_missingCols.mpr ⟨hc, hn⟩
  · intro hall hex
    have h1 : missingCols requiredOpps oppCols = [] := missingCols_nil hall
    have hne := missingCols_ne_nil hex
    constructor
    · unfold schemaCheck
      rw [if_neg (by simp [h1]), if_pos hne]
    · intro c hc hn
      exact mem_missingCols.mpr ⟨hc, hn⟩
  · constructor
    · intro hok
      by_cases h1 : missingCols requiredOpps oppCols = []
      · by_cases h2 : missingCols requiredRoles roleCols = []
        · exact ⟨h1, h2⟩
        · exfalso
          unfold schemaCheck at hok
          rw [if_neg (by simp [h1]), if_pos h2] at hok
          exact Except.noConfusion hok
      · exfalso
        unfold schemaCheck at hok
        rw [if_pos h1] at hok
        exact Except.noConfusion hok
    · rintro ⟨h1, h2⟩
      unfold schemaCheck
      rw [if_neg (by simp [h1]), if_neg (by simp [h2])]

/-- Claim C9, witness: an opportunities file lacking the Stage column makes
the pipeline halt with the error naming the missing columns. -/
theorem claimC9_witness :
    schemaCheck
        [("Opportunity ID"), ("Opportunity Name"), ("Account ID"), ("Amount"),
         ("Type"), ("Created Date"), ("Close Date"), ("Opportunity Owner")]
        requiredRoles
      = Except.error (oppsErrorMsg (missingCols requiredOpps
          [("Opportunity ID"), ("Opportunity Name"), ("Account ID"), ("Amount"),
           ("Type"), ("Created Date"), ("Close Date"), ("Opportunity Owner")])) :=
  ((claimC9_theorem
      [("Opportunity ID"), ("Opportunity Name"), ("Account ID"), ("Amount"),
       ("Type"), ("Created Date"), ("Close Date"), ("Opportunity Owner")]
      requiredRoles).1 ⟨("Stage"), by decide, by decide⟩).1

/- ===== Claim C10 ===== -/

/-- Claim C10: the modeled win rate is monotone non-decreasing in the
target contact count, for any base win rate in [0,1] and non-negative
average open contacts. -/
theorem claimC10_theorem (avg base t1 t2 : ℚ) (hb0 : 0 ≤ base)
    (hb1 : base ≤ 1) (ha : 0 ≤ avg) (ht : t1 ≤ t2) :
    modeled_win_rate_for_open avg base t1
      ≤ modeled_win_rate_for_open avg base t2 := by
  have hc : (0 : ℚ) < max avg 0.000001 := lt_max_of_lt_right (by norm_num)
  have hdiv : t1 / max avg 0.000001 ≤ t2 / max avg 0.000001 := by gcongr
  have hmin : min (1.8 : ℚ) (t1 / max avg 0.000001)
      ≤ min (1.8 : ℚ) (t2 / max avg 0.000001) := min_le_min le_rfl hdiv
  have hmul := mul_le_mul_of_nonneg_left hmin hb0
  exact min_le_min (max_le_max hmul le_rfl) le_rfl

/-- Claim C10, witness: monotonicity at avg 1, base 1/2 for targets 1 ≤ 2. -/
theorem claimC10_witness :
    modeled_win_rate_for_open 1 (1/2) 1 ≤ modeled_win_rate_for_open 1 (1/2) 2 :=
  claimC10_theorem 1 (1/2) 1 2 (by norm_num) (by norm_num) (by norm_num)
    (by norm_num)

end App
